import Mathlib

attribute [local semireducible] Rat.add Rat.sub Rat.mul Rat.inv

/-!
Verification development for the daily PayPal load pipeline.

Shallow embedding of:
  - scripts/transform.py   (PayPalTransactionParser.parse_transaction and helpers,
                            generate_statistics)
  - scripts/utils.py       (retry_on_failure, validate_transaction_data)
  - scripts/fetch_transactions.py (get_access_token retry policy, fetch_transactions
                            pagination loop)
  - scripts/load_to_bq.py  (validate_data quality scoring)
  - dags/paypal_dag.py     (extract_paypal_data fallback mock generator)

Python floats are modelled as rationals (all numerics in play are short decimal
literals), raw records as a JSON value type, and Python exceptions inside
parse_transaction as the error case of Except (the code turns them into a
ParseFailure entry).
-/

/-- JSON-like values as the Python code receives them. -/
inductive Json where
  | null
  | bool (v : Bool)
  | num (v : Rat)
  | str (s : String)
  | arr (elems : List Json)
  | obj (fields : List (String × Json))

/-- Python truthiness of a JSON value. -/
def Json.truthy : Json → Bool
  | .null => false
  | .bool v => v
  | .num v => v != 0
  | .str s => s != ""
  | .arr l => !l.isEmpty
  | .obj l => !l.isEmpty

/-- Model of dict.get(k, d): lookup with default. Only meaningful on an obj; the caller
is responsible for having established that (asObj below). -/
def jget (fs : List (String × Json)) (k : String) (d : Json) : Json :=
  ((fs.lookup k).getD d)

/-- Accessing a value as a dict; any other shape raises in Python
(AttributeError), modelled as the error case. -/
def asObj : Json → Except Unit (List (String × Json))
  | .obj fs => .ok fs
  | _ => .error ()

/-- Python len() on a JSON value; raises TypeError on unsized values. -/
def jLen : Json → Except Unit Nat
  | .str s => .ok s.length
  | .arr l => .ok l.length
  | .obj l => .ok l.length
  | _ => .error ()

/-- Decimal digit run to a natural number. -/
def digitsToNat (l : List Char) : Nat :=
  l.foldl (fun a c => a * 10 + (c.toNat - 48)) 0

/-- Python str.strip() over the character list (whitespace both ends). -/
def stripChars (l : List Char) : List Char :=
  ((l.dropWhile Char.isWhitespace).reverse.dropWhile Char.isWhitespace).reverse

/-- Python str.strip() on a string. -/
def pyStrip (s : String) : String := String.mk (stripChars s.data)

/-- Python str.replace(pat, repl) for a single-character pattern, which is the
only form the code uses (replace Z by +00:00, and removing dashes). -/
def pyReplaceChar (s : String) (pat : Char) (repl : String) : String :=
  String.mk (s.data.foldr (fun c acc => if c = pat then repl.data ++ acc else c :: acc) [])

/-- Python float(s) restricted to plain decimal notation (sign, digits, optional
fraction). Exponent and special forms are not modelled and yield none, which
_safe_float maps to 0.0 exactly as it maps real parse failures. -/
def parseDecimal (s : String) : Option Rat :=
  let cs := stripChars s.data
  let signAndRest : Int × List Char :=
    match cs with
    | '+' :: r => (1, r)
    | '-' :: r => (-1, r)
    | r => (1, r)
  let sign := signAndRest.1
  let body := signAndRest.2
  let intPart := body.takeWhile (fun c => c != '.')
  let rest := body.dropWhile (fun c => c != '.')
  if !(intPart.all Char.isDigit) then none
  else
    match rest with
    | [] =>
      if intPart.isEmpty then none
      else some ((sign * (digitsToNat intPart : Int) : Int) : Rat)
    | '.' :: frac =>
      if intPart.isEmpty && frac.isEmpty then none
      else if !(frac.all Char.isDigit) then none
      else some ((sign : Rat) *
        ((digitsToNat intPart : Rat) + (digitsToNat frac : Rat) / ((10 : Rat) ^ frac.length)))
    | _ => none

/-- Number of decimal places needed to render q exactly, if at most 30. -/
def decPlaces (q : Rat) : Option Nat :=
  (List.range 31).find? (fun k => q.den ∣ 10 ^ k)

/-- Left pad a decimal rendering with zeros. -/
def padZeros (width : Nat) (n : Nat) : String :=
  let s := toString n
  if s.length < width then String.mk (List.replicate (width - s.length) '0') ++ s else s

/-- Python str() of a float value modelled as a rational: integers render bare,
finite decimals render with their digits. (str of a Python int and of an
integral float differ by a trailing .0; the Json model does not track which
of the two produced the rational, and renders bare.) -/
def pyNumStr (q : Rat) : String :=
  if q.den = 1 then toString q.num
  else
    match decPlaces q with
    | some k =>
      let scaled := q * (10 : Rat) ^ k
      let n := scaled.num.natAbs
      let sign := if q.num < 0 then "-" else ""
      let digits := (padZeros (k + 1) n).data
      let whole := String.mk (digits.take (digits.length - k))
      let frac := String.mk (((digits.drop (digits.length - k)).reverse.dropWhile
        (fun c => c = '0')).reverse)
      sign ++ whole ++ "." ++ (if frac.isEmpty then "0" else frac)
    | none => toString q.num ++ "/" ++ toString q.den

mutual
/-- Python repr() of a JSON value (only exercised through pyStr on nested
containers, which no claim touches; string quoting is single quotes). -/
def pyRepr : Json → String
  | .null => "None"
  | .bool true => "True"
  | .bool false => "False"
  | .num q => pyNumStr q
  | .str s => "\x27" ++ s ++ "\x27"
  | .arr l => "[" ++ pyReprList l ++ "]"
  | .obj l => "\x7b" ++ pyReprObj l ++ "\x7d"

def pyReprList : List Json → String
  | [] => ""
  | [x] => pyRepr x
  | x :: r => pyRepr x ++ ", " ++ pyReprList r

def pyReprObj : List (String × Json) → String
  | [] => ""
  | [(k, v)] => "\x27" ++ k ++ "\x27: " ++ pyRepr v
  | (k, v) :: r => "\x27" ++ k ++ "\x27: " ++ pyRepr v ++ ", " ++ pyReprObj r
end

/-- Python str() of a JSON value. -/
def pyStr : Json → String
  | .str s => s
  | j => pyRepr j

/-- Source scripts/transform.py _safe_float: float(value) if value is not None else
0.0, with ValueError and TypeError giving 0.0. -/
def safe_float : Json → Rat
  | .null => 0
  | .bool true => 1
  | .bool false => 0
  | .num q => q
  | .str s => (parseDecimal s).getD 0
  | .arr _ => 0
  | .obj _ => 0

/-- Read exactly n decimal digits. -/
def readDigits : Nat → List Char → Option (Nat × List Char)
  | 0, cs => some (0, cs)
  | n + 1, c :: cs =>
    if c.isDigit then
      match readDigits n cs with
      | some (v, rest) => some ((c.toNat - 48) * 10 ^ n + v, rest)
      | none => none
    else none
  | _ + 1, [] => none

def isLeap (y : Nat) : Bool := (y % 4 = 0 && y % 100 != 0) || y % 400 = 0

def daysInMonth (y m : Nat) : Nat :=
  if m = 2 then (if isLeap y then 29 else 28)
  else if m = 4 || m = 6 || m = 9 || m = 11 then 30
  else 31

/-- Optional fractional part (dot or comma plus digits); value is discarded by
the strftime format in use. -/
def parseFrac : List Char → Option (List Char)
  | '.' :: rest =>
    let ds := rest.takeWhile Char.isDigit
    if ds.isEmpty then none else some (rest.drop ds.length)
  | ',' :: rest =>
    let ds := rest.takeWhile Char.isDigit
    if ds.isEmpty then none else some (rest.drop ds.length)
  | cs => some cs

/-- Time part of datetime.fromisoformat: HH, HH:MM or HH:MM:SS with an
optional fraction after the seconds. -/
def parseTimePart (cs : List Char) : Option ((Nat × Nat × Nat) × List Char) := do
  let (h, r1) ← readDigits 2 cs
  match r1 with
  | ':' :: r2 => do
    let (mi, r3) ← readDigits 2 r2
    match r3 with
    | ':' :: r4 => do
      let (se, r5) ← readDigits 2 r4
      let r6 ← parseFrac r5
      pure ((h, mi, se), r6)
    | _ => pure ((h, mi, 0), r3)
  | _ => pure ((h, 0, 0), r1)

/-- Offset part of datetime.fromisoformat: empty, or sign plus HH, HH:MM,
HHMM or HH:MM:SS. Only validity matters to the caller: the offset value is
parsed and then never applied. -/
def parseOffsetPart : List Char → Option Unit
  | [] => some ()
  | c :: r =>
    if c = '+' || c = '-' then
      match readDigits 2 r with
      | none => none
      | some (hh, r1) =>
        match r1 with
        | [] => if hh < 24 then some () else none
        | ':' :: r2 =>
          match readDigits 2 r2 with
          | none => none
          | some (mm, r3) =>
            match r3 with
            | [] => if hh < 24 && mm < 60 then some () else none
            | ':' :: r4 =>
              match readDigits 2 r4 with
              | none => none
              | some (ss, r5) =>
                match parseFrac r5 with
                | some [] => if hh < 24 && mm < 60 && ss < 60 then some () else none
                | _ => none
            | _ => none
        | _ =>
          match readDigits 2 r1 with
          | none => none
          | some (mm, r3) =>
            if r3.isEmpty && hh < 24 && mm < 60 then some () else none
    else none

/-- Model of datetime.fromisoformat restricted to extended format
(YYYY-MM-DD[sep HH[:MM[:SS[.ffffff]]][offset]]); basic compact forms are not
modelled (no claim exercises them). Returns the parsed wall-clock fields; the
offset is validated but, matching the strftime call in _parse_timestamp, never
applied to the wall clock. -/
def fromisoformat (s : String) : Option (Nat × Nat × Nat × Nat × Nat × Nat) := do
  let cs := s.data
  let (y, r1) ← readDigits 4 cs
  match r1 with
  | '-' :: r2 => do
    let (mo, r3) ← readDigits 2 r2
    match r3 with
    | '-' :: r4 => do
      let (d, r5) ← readDigits 2 r4
      if y = 0 || mo = 0 || 12 < mo || d = 0 || daysInMonth y mo < d then none
      else
        match r5 with
        | [] => some (y, mo, d, 0, 0, 0)
        | _sep :: r6 => do
          let ((h, mi, se), r7) ← parseTimePart r6
          if 23 < h || 59 < mi || 59 < se then none
          else do
            let _ ← parseOffsetPart r7
            some (y, mo, d, h, mi, se)
    | _ => none
  | _ => none

/-- Model of strftime of the wall-clock fields in the fixed BigQuery format the code
uses; the literal text UTC is appended regardless of the original offset. -/
def strftimeUTC (y mo d h mi se : Nat) : String :=
  padZeros 4 y ++ "-" ++ padZeros 2 mo ++ "-" ++ padZeros 2 d ++ " " ++
    padZeros 2 h ++ ":" ++ padZeros 2 mi ++ ":" ++ padZeros 2 se ++ " UTC"

/-- Source transform.py _parse_timestamp on the raw JSON value: falsy input gives
None; a truthy non-string raises inside the try (replace on a non-str) and
gives None; a string has every Z replaced by +00:00, is parsed, and the parsed
wall clock is formatted with a literal UTC suffix. Any parse failure gives
None. -/
def parse_timestamp : Json → Option String
  | .str s =>
    if s = "" then none
    else
      match fromisoformat (pyReplaceChar s 'Z' "+00:00") with
      | some (y, mo, d, h, mi, se) => some (strftimeUTC y mo d h mi se)
      | none => none
  | _ => none

/-- One normalized line item (transform.py _parse_items). -/
structure ParsedItem where
  item_name : String
  item_quantity : String
  item_unit_price : Rat
  item_amount : Rat
  item_description : String
  item_sku : String
  item_category : String
deriving Repr, DecidableEq

/-- The flat record built by parse_transaction. Fields the Python code stores
verbatim from the raw dict stay Json; fields it builds through str() or float()
are String or Rat; timestamps are the strftime output or None. The
nondeterministic parsed_at wall-clock field is omitted. -/
structure Parsed where
  transaction_id : Json
  paypal_account_id : Json
  transaction_status : Json
  transaction_subject : Json
  transaction_note : Json
  invoice_id : Json
  amount : Rat
  currency_code : Json
  fee_amount : Rat
  net_amount : Rat
  transaction_date : Option String
  updated_date : Option String
  payer_email : Json
  payer_name : String
  payer_country : Json
  payer_id : Json
  payment_method : Json
  store_info : Json
  custom_field : Json
  shipping_method : Json
  shipping_name : String
  shipping_address : String
  item_count : Nat
  items : List ParsedItem

/-- Source transform.py _get_full_name: empty for a falsy object, else join the truthy
given_name and surname parts with one space; a truthy non-dict raises. -/
def get_full_name (j : Json) : Except Unit String :=
  if j.truthy then do
    let fs ← asObj j
    let given := jget fs "given_name" .null
    let sur := jget fs "surname" .null
    let parts := (if given.truthy then [pyStrip (pyStr given)] else []) ++
                 (if sur.truthy then [pyStrip (pyStr sur)] else [])
    pure (String.intercalate " " parts)
  else pure ""

def addressFields : List String :=
  ["address_line_1", "address_line_2", "admin_area_2",
   "admin_area_1", "postal_code", "country_code"]

/-- Source transform.py _format_address: empty for a falsy object, else the truthy
parts joined with a comma and space; a truthy non-dict raises. -/
def format_address (j : Json) : Except Unit String :=
  if j.truthy then do
    let fs ← asObj j
    let parts := addressFields.filterMap (fun k =>
      let v := jget fs k .null
      if v.truthy then some (pyStrip (pyStr v)) else none)
    pure (String.intercalate ", " parts)
  else pure ""

/-- Source transform.py _extract_payment_method: the first tracking entry when the
tracking info is a nonempty list (a non-dict first entry raises), else empty. -/
def extract_payment_method (tinfo : List (String × Json)) : Except Unit Json :=
  match jget tinfo "payment_tracking_info" (.arr []) with
  | .arr (h :: _) => do
    let hfs ← asObj h
    pure (jget hfs "payment_method" (.str ""))
  | _ => pure (.str "")

/-- Source transform.py _extract_store_info: store_id of a truthy store_info dict
(truthy non-dict raises), else empty. -/
def extract_store_info (tinfo : List (String × Json)) : Except Unit Json :=
  let store := jget tinfo "store_info" (.obj [])
  if store.truthy then do
    let fs ← asObj store
    pure (jget fs "store_id" (.str ""))
  else pure (.str "")

/-- Source transform.py _parse_items body for one item; a non-dict item raises, and a
truthy non-dict unit price or amount raises. -/
def item_money (j : Json) : Except Unit Rat :=
  if j.truthy then do
    let fs ← asObj j
    pure (safe_float (jget fs "value" .null))
  else pure (safe_float (.num 0))

def parse_item (j : Json) : Except Unit ParsedItem := do
  let fs ← asObj j
  let unitPrice ← item_money (jget fs "item_unit_price" .null)
  let itemAmount ← item_money (jget fs "item_amount" .null)
  pure {
    item_name := pyStrip (pyStr (jget fs "item_name" (.str "")))
    item_quantity := pyStr (jget fs "item_quantity" (.str "0"))
    item_unit_price := unitPrice
    item_amount := itemAmount
    item_description := pyStrip (pyStr (jget fs "item_description" (.str "")))
    item_sku := pyStrip (pyStr (jget fs "sku" (.str "")))
    item_category := pyStrip (pyStr (jget fs "item_category" (.str ""))) }

/-- Source transform.py _parse_items over the item_details value. Iterating a list
maps parse_item; iterating an empty dict or empty string yields nothing; any
other shape raises (len() on unsized values, or dict access on the elements
produced by iterating keys or characters). -/
def parse_items : Json → Except Unit (List ParsedItem)
  | .arr l => l.mapM parse_item
  | .obj fs => if fs.isEmpty then pure [] else .error ()
  | .str s => if s.isEmpty then pure [] else .error ()
  | _ => .error ()

def statusEnum : List String :=
  ["P", "S", "D", "V", "F", "Pending", "Success", "Denied", "Reversed", "Failed"]

def statusIsKnown : Json → Bool
  | .str s => statusEnum.contains s
  | _ => false

/-- The currency-code business rule: the only raising step of
validate_transaction_data on a parsed record (len() of a truthy unsized
value). -/
def currency_errors (c : Json) : Except Unit (List String) :=
  if c.truthy then do
    let n ← jLen c
    pure (if n ≠ 3 then ["Currency code must be 3 characters"] else [])
  else pure ([] : List String)

/-- Source utils.py validate_transaction_data applied to a record built by
parse_transaction: returns (is_valid, errors). The only raising step is len()
on a truthy unsized currency_code value; the transaction_date branch can never
fire because the parsed value is always None or a string. -/
def validate_transaction_data (t : Parsed) : Except Unit (Bool × List String) := do
  let e1 := if !t.transaction_id.truthy then ["Missing required field: transaction_id"] else []
  let e2 := if t.amount < 0 then ["Amount cannot be negative"] else []
  let e3 :=
    if t.transaction_status.truthy && !statusIsKnown t.transaction_status then
      ["Invalid transaction status: " ++ pyStr t.transaction_status]
    else []
  let e4 ← currency_errors t.currency_code
  let errors := e1 ++ e2 ++ e3 ++ e4
  pure (errors.isEmpty, errors)

/-- Model of fee parsing in parse_transaction: safe_float of the fee value when
fee_info is truthy (a truthy non-dict raises), else the int 0. -/
def fee_value (feeInfo : Json) : Except Unit Rat :=
  if feeInfo.truthy then do
    let ffs ← asObj feeInfo
    pure (safe_float (jget ffs "value" (.num 0)))
  else pure (0 : Rat)

/-- Model of item_count in parse_transaction: len of item_details when cart_info is
truthy (dict access on a truthy non-dict raises), else 0. -/
def cart_item_count (cart : Json) : Except Unit Nat :=
  if cart.truthy then do
    let cfs ← asObj cart
    jLen (jget cfs "item_details" (.arr []))
  else pure 0

/-- Model of the items step in parse_transaction: _parse_items of item_details when cart_info is
truthy, else the empty list. -/
def cart_items (cart : Json) : Except Unit (List ParsedItem) :=
  if cart.truthy then do
    let cfs ← asObj cart
    parse_items (jget cfs "item_details" (.arr []))
  else pure []

/-- Source transform.py parse_transaction. A Python exception anywhere inside the try
block (group access on a non-dict, iteration or len() on a bad item list, len()
inside validation) is modelled as the error case, which the code records as a
ParseFailure and returns None for. The record is returned even when business
validation reports errors. -/
def parse_transaction (t : Json) : Except Unit Parsed := do
  let fs ← asObj t
  let tinfo ← asObj (jget fs "transaction_info" (.obj []))
  let payer ← asObj (jget fs "payer_info" (.obj []))
  let ship ← asObj (jget fs "shipping_info" (.obj []))
  let cart := jget fs "cart_info" (.obj [])
  let amountInfo ← asObj (jget tinfo "transaction_amount" (.obj []))
  let amountValue := safe_float (jget amountInfo "value" (.num 0))
  let currencyCode := jget amountInfo "currency_code" (.str "USD")
  let feeValue ← fee_value (jget tinfo "fee_amount" (.obj []))
  let transactionDate := parse_timestamp (jget tinfo "transaction_initiation_date" (.str ""))
  let updatedDate := parse_timestamp (jget tinfo "transaction_updated_date" (.str ""))
  let payerName ← get_full_name (jget payer "payer_name" (.obj []))
  let paymentMethod ← extract_payment_method tinfo
  let storeInfo ← extract_store_info tinfo
  let shipName ← get_full_name (jget ship "name" (.obj []))
  let shipAddr ← format_address (jget ship "address" (.obj []))
  let itemCount ← cart_item_count cart
  let items ← cart_items cart
  let parsed : Parsed := {
    transaction_id := jget tinfo "transaction_id" (.str "")
    paypal_account_id := jget tinfo "paypal_account_id" (.str "")
    transaction_status := jget tinfo "transaction_status" (.str "")
    transaction_subject := jget tinfo "transaction_subject" (.str "")
    transaction_note := jget tinfo "transaction_note" (.str "")
    invoice_id := jget tinfo "invoice_id" (.str "")
    amount := amountValue
    currency_code := currencyCode
    fee_amount := feeValue
    net_amount := amountValue - feeValue
    transaction_date := transactionDate
    updated_date := updatedDate
    payer_email := jget payer "email_address" (.str "")
    payer_name := payerName
    payer_country := jget payer "country_code" (.str "")
    payer_id := jget payer "payer_id" (.str "")
    payment_method := paymentMethod
    store_info := storeInfo
    custom_field := jget tinfo "custom_field" (.str "")
    shipping_method := jget ship "method" (.str "")
    shipping_name := shipName
    shipping_address := shipAddr
    item_count := itemCount
    items := items }
  let _ ← validate_transaction_data parsed
  pure parsed

/-- Daily rollup cell in generate_statistics. -/
structure DailyAgg where
  count : Nat
  total_amount : Rat
  total_fee : Rat
  net_amount : Rat
deriving Repr, DecidableEq

/-- Date part of the stored transaction_date, when truthy. -/
def dailyKey (t : Parsed) : Option String :=
  match t.transaction_date with
  | none => none
  | some d => if d = "" then none else some (String.mk (d.data.takeWhile (fun c => c != ' ')))

/-- Update the rollup for one key, preserving dict insertion order. -/
def addDaily (m : List (String × DailyAgg)) (k : String) (t : Parsed) :
    List (String × DailyAgg) :=
  match m with
  | [] => [(k, ⟨1, t.amount, t.fee_amount, t.net_amount⟩)]
  | (k0, a) :: rest =>
    if k0 = k then
      (k0, ⟨a.count + 1, a.total_amount + t.amount, a.total_fee + t.fee_amount,
            a.net_amount + t.net_amount⟩) :: rest
    else (k0, a) :: addDaily rest k t

/-- Source transform.py generate_statistics daily_data accumulation. -/
def daily_data (parsed : List Parsed) : List (String × DailyAgg) :=
  parsed.foldl (fun m t =>
    match dailyKey t with
    | none => m
    | some k => addDaily m k t) []

def insertByKey (x : String × DailyAgg) : List (String × DailyAgg) → List (String × DailyAgg)
  | [] => [x]
  | y :: r => if x.1 ≤ y.1 then x :: y :: r else y :: insertByKey x r

/-- Model of dict(sorted(daily_data.items())): ascending by the (distinct) date keys. -/
def daily_summary (parsed : List Parsed) : List (String × DailyAgg) :=
  (daily_data parsed).foldr insertByKey []

/-- Result of transform.py generate_statistics: either the early error dict for
an empty batch, or the statistics. Only the summary success_rate and the
daily_summary parts are modelled; the status, currency and payment-method
histograms and the amount statistics are built from the same fold and no claim
concerns them. -/
inductive StatsResult where
  | errorDict (msg : String)
  | stats (success_rate : Rat) (daily : List (String × DailyAgg))

/-- Source transform.py generate_statistics: empty input returns the error dict before
any division; otherwise success_rate is count over count plus parse failures,
times 100. -/
def generate_statistics (parsed : List Parsed) (parsingErrors : Nat) : StatsResult :=
  if parsed.isEmpty then .errorDict "No transactions to analyze"
  else
    .stats ((parsed.length : Rat) / ((parsed.length : Rat) + (parsingErrors : Rat)) * 100)
      (daily_summary parsed)

/-- Source dags/paypal_dag.py extract_paypal_data fallback: the i-th mock transaction
(i from 1 to 25). Amount is i * 12.50 and fee is i * 0.50, both rendered with
two decimals, so they are carried here as cent counts. -/
def centsFmt (c : Nat) : String := toString (c / 100) ++ "." ++ padZeros 2 (c % 100)

def mock_transaction (startDate : String) (i : Nat) : Json :=
  .obj [
    ("transaction_info", .obj [
      ("transaction_id", .str ("MOCK" ++ padZeros 3 i ++ "_" ++ pyReplaceChar startDate '-' "")),
      ("transaction_amount", .obj [("currency_code", .str "USD"),
                                   ("value", .str (centsFmt (i * 1250)))]),
      ("transaction_status", .str "S"),
      ("transaction_initiation_date",
        .str (startDate ++ "T" ++ padZeros 2 (10 + i % 12) ++ ":30:00+00:00")),
      ("invoice_id", .str ("INV_" ++ startDate ++ "_" ++ padZeros 3 i)),
      ("fee_amount", .obj [("currency_code", .str "USD"),
                           ("value", .str (centsFmt (i * 50)))])]),
    ("payer_info", .obj [
      ("email_address", .str ("customer" ++ toString i ++ "@example.com")),
      ("payer_name", .obj [("given_name", .str ("Customer" ++ toString i)),
                           ("surname", .str "Test")]),
      ("country_code", .str "US")]),
    ("cart_info", .obj [
      ("item_details", .arr [.obj [
        ("item_name", .str ("Product " ++ toString i)),
        ("item_quantity", .str "1"),
        ("item_amount", .obj [("currency_code", .str "USD"),
                              ("value", .str (centsFmt (i * 1250)))])]])])]

/-- The 25 mock transactions generated for one start date. -/
def mock_transactions (startDate : String) : List Json :=
  (List.range' 1 25).map (mock_transaction startDate)

/-- The successfully parsed records of a raw batch, in order. -/
def parsed_batch (raw : List Json) : List Parsed :=
  raw.filterMap (fun t => (parse_transaction t).toOption)

/-- The number of ParseFailure entries a raw batch produces. -/
def parse_failures (raw : List Json) : Nat :=
  (raw.filter (fun t => !(parse_transaction t).isOk)).length

/-- One HTTP response in the fetch_transactions.py pagination loop: a 200 with
its transaction_details (opaque tokens) and whether a next link is advertised,
a 429, a 401 or 403, any other status, or an exception during the request. -/
inductive PageResp where
  | ok (transactions : List String) (hasNext : Bool)
  | rateLimited
  | authFailure
  | otherFailure
  | exn
deriving Repr, DecidableEq

/-- Source fetch_transactions.py fetch_transactions main loop model. env gives the response to
the n-th HTTP request issued; fuel bounds the number of loop iterations
modelled (the Python loop has no bound on 429 retries or page-1 auth retries,
so a fixed fuel can run out, giving none). Returns the accumulated transactions
and the number of requests issued. max_pages is the hard 100-page ceiling,
page_size the short-page threshold. -/
def fetch_go (pageSize : Nat) (env : Nat → PageResp) :
    Nat → Nat → Nat → List String → Option (List String × Nat)
  | 0, _, _, _ => none
  | fuel + 1, k, page, acc =>
    if 100 < page then some (acc, k)
    else
      match env k with
      | .ok txs hasNext =>
        if txs.isEmpty then some (acc, k + 1)
        else if !hasNext || txs.length < pageSize then some (acc ++ txs, k + 1)
        else fetch_go pageSize env fuel (k + 1) (page + 1) (acc ++ txs)
      | .rateLimited => fetch_go pageSize env fuel (k + 1) page acc
      | .authFailure =>
        if page = 1 then fetch_go pageSize env fuel (k + 1) page acc
        else some (acc, k + 1)
      | .otherFailure => some (acc, k + 1)
      | .exn => some (acc, k + 1)

/-- Source fetch_transactions.py fetch_transactions from its initial state. -/
def fetch_transactions (pageSize : Nat) (env : Nat → PageResp) (fuel : Nat) :
    Option (List String × Nat) :=
  fetch_go pageSize env fuel 0 1 []

/-- Source utils.py retry_on_failure wrapper body. f gives the outcome of the n-th
call of the wrapped function; remaining counts the retries still allowed.
Returns the final outcome, the list of sleep durations in order, and the total
number of calls made. -/
def retry_go {ε α : Type} (backoff : Rat) (f : Nat → Except ε α) :
    Nat → Nat → Rat → List Rat → Except ε α × List Rat × Nat
  | remaining, attempt, curDelay, sleeps =>
    match f attempt with
    | .ok a => (.ok a, sleeps, attempt + 1)
    | .error e =>
      match remaining with
      | 0 => (.error e, sleeps, attempt + 1)
      | r + 1 => retry_go backoff f r (attempt + 1) (curDelay * backoff) (sleeps ++ [curDelay])

/-- Source utils.py retry_on_failure(max_retries, delay, backoff) applied to a
function whose n-th call gives f n. -/
def retry_on_failure {ε α : Type} (maxRetries : Nat) (delay backoff : Rat)
    (f : Nat → Except ε α) : Except ε α × List Rat × Nat :=
  retry_go backoff f maxRetries 0 delay []

/-- Source fetch_transactions.py get_access_token is decorated with
retry_on_failure(max_retries=3, delay=5) and the default backoff 2. -/
def get_access_token {ε α : Type} (f : Nat → Except ε α) : Except ε α × List Rat × Nat :=
  retry_on_failure 3 5 2 f

/-- One sink row as seen by the validation queries of load_to_bq.py: its
identity key and the DATE() of its transaction_date. -/
structure SinkRow where
  transaction_id : Option String
  txn_date : Option String
deriving Repr, DecidableEq

/-- The data_quality block computed by validate_data. -/
structure QualityScore where
  completeness_score : Rat
  uniqueness_score : Rat
  total_score : Rat
deriving Repr, DecidableEq

/-- Rows matching the date filter (DATE(transaction_date) = DATE(filter); a
NULL date matches nothing). -/
def dateFiltered (rows : List SinkRow) (filter : String) : List SinkRow :=
  rows.filter (fun r => r.txn_date == some filter)

/-- Source load_to_bq.py validate_data data-quality computation over the date-filtered
sink rows (the DAG always passes a date filter; without one the
null_transaction_ids query text is malformed SQL). total_rows is COUNT(*),
unique_transactions is COUNT(DISTINCT transaction_id) which ignores NULLs,
null_ids counts rows with a NULL identity key; the zero-row guards return 0
instead of dividing. -/
def validate_data (rows : List SinkRow) (filter : String) : QualityScore :=
  let rs := dateFiltered rows filter
  let totalRows : Nat := rs.length
  let uniqueTransactions : Nat := (rs.filterMap (fun r => r.transaction_id)).dedup.length
  let nullIds : Nat := (rs.filter (fun r => r.transaction_id == none)).length
  let completeness : Rat :=
    if 0 < totalRows then (1 - (nullIds : Rat) / (totalRows : Rat)) * 100 else 0
  let uniqueness : Rat :=
    if 0 < totalRows then ((uniqueTransactions : Rat) / (totalRows : Rat)) * 100 else 0
  ⟨completeness, uniqueness, (completeness + uniqueness) / 2⟩

/-- A value is a dict. -/
def isObjB : Json → Bool
  | .obj _ => true
  | _ => false

/-- The fields of a dict value, empty for non-dicts; paired with isObjB this
names what asObj returns on success. -/
def objFieldsD : Json → List (String × Json)
  | .obj fs => fs
  | _ => []

/-- Values the code only dict-accesses behind a truthiness guard: safe when
falsy or a dict. -/
def truthyObjOk (j : Json) : Bool := !j.truthy || isObjB j

/-- Values of payment_tracking_info are only indexed when it is a nonempty list, and then
its first element is dict-accessed. -/
def trackingOk : Json → Bool
  | .arr (h :: _) => isObjB h
  | _ => true

def itemOk (it : Json) : Bool :=
  isObjB it && truthyObjOk (jget (objFieldsD it) "item_unit_price" .null) &&
    truthyObjOk (jget (objFieldsD it) "item_amount" .null)

def itemsOk : Json → Bool
  | .arr l => l.all itemOk
  | .obj fs => fs.isEmpty
  | .str s => s.isEmpty
  | _ => false

def cartOk (cart : Json) : Bool :=
  !cart.truthy ||
  (isObjB cart && itemsOk (jget (objFieldsD cart) "item_details" (.arr [])))

/-- Python len() succeeds on the value. -/
def lenOk : Json → Bool
  | .str _ => true
  | .arr _ => true
  | .obj _ => true
  | _ => false

def currencyLenOk (c : Json) : Bool := !c.truthy || lenOk c

/-- Structural well-shapedness of a raw record: exactly the conditions under
which parse_transaction dereferences no non-dict, iterates no bad item list
and measures no unsized currency value. It constrains only the shapes of the
nested groups; every numeric, date and other leaf value is unconstrained. -/
def wellShaped (t : Json) : Bool :=
  isObjB t &&
  isObjB (jget (objFieldsD t) "transaction_info" (.obj [])) &&
  isObjB (jget (objFieldsD t) "payer_info" (.obj [])) &&
  isObjB (jget (objFieldsD t) "shipping_info" (.obj [])) &&
  isObjB (jget (objFieldsD (jget (objFieldsD t) "transaction_info" (.obj [])))
    "transaction_amount" (.obj [])) &&
  currencyLenOk (jget (objFieldsD (jget (objFieldsD (jget (objFieldsD t) "transaction_info"
    (.obj []))) "transaction_amount" (.obj []))) "currency_code" (.str "USD")) &&
  truthyObjOk (jget (objFieldsD (jget (objFieldsD t) "transaction_info" (.obj [])))
    "fee_amount" (.obj [])) &&
  truthyObjOk (jget (objFieldsD (jget (objFieldsD t) "payer_info" (.obj [])))
    "payer_name" (.obj [])) &&
  trackingOk (jget (objFieldsD (jget (objFieldsD t) "transaction_info" (.obj [])))
    "payment_tracking_info" (.arr [])) &&
  truthyObjOk (jget (objFieldsD (jget (objFieldsD t) "transaction_info" (.obj [])))
    "store_info" (.obj [])) &&
  truthyObjOk (jget (objFieldsD (jget (objFieldsD t) "shipping_info" (.obj [])))
    "name" (.obj [])) &&
  truthyObjOk (jget (objFieldsD (jget (objFieldsD t) "shipping_info" (.obj [])))
    "address" (.obj [])) &&
  cartOk (jget (objFieldsD t) "cart_info" (.obj []))

/-- The raw record carries no currency_code under the code lookup path: the
transaction_amount group is missing (defaulting to an empty dict) or is a dict
without the key. -/
def currencyAbsent (t : Json) : Bool :=
  isObjB t &&
  isObjB (jget (objFieldsD t) "transaction_info" (.obj [])) &&
  isObjB (jget (objFieldsD (jget (objFieldsD t) "transaction_info" (.obj [])))
    "transaction_amount" (.obj [])) &&
  ((objFieldsD (jget (objFieldsD (jget (objFieldsD t) "transaction_info" (.obj [])))
    "transaction_amount" (.obj []))).lookup "currency_code").isNone

theorem except_bind_ok {ε α β : Type} (x : Except ε α) (f : α → Except ε β) (b : β) :
    x >>= f = .ok b ↔ ∃ a, x = .ok a ∧ f a = .ok b := by
  cases x <;> simp [Bind.bind, Except.bind]

theorem except_pure_ok {ε α : Type} (a b : α) :
    (pure a : Except ε α) = .ok b ↔ a = b := by
  constructor
  · intro h
    cases h
    rfl
  · intro h
    cases h
    rfl

/-- Claim C1: every record parse_transaction emits satisfies
net_amount = amount - fee_amount exactly, with amount and fee_amount the
safely coerced values, whatever net value the raw record may carry. -/
theorem net_amount_recomputed (t : Json) (r : Parsed) (h : parse_transaction t = .ok r) :
    r.net_amount = r.amount - r.fee_amount := by
  unfold parse_transaction at h
  simp only [except_bind_ok, except_pure_ok] at h
  obtain ⟨fs, -, ⟨tinfo, -, payer, -, ship, -, amountInfo, -, feeValue, -, payerName, -,
    pm, -, si, -, sn, -, sa, -, ic, -, items, -, vp, -, hr⟩⟩ := h
  subst hr
  rfl

/-- Claim C1 witness: a concrete raw record whose upstream net value (999) is
ignored; the emitted record has net 10.00 - 1.00. -/
theorem net_amount_recomputed_witness :
    ∃ r, parse_transaction (.obj [("transaction_info", .obj [
      ("transaction_id", .str "T1"),
      ("transaction_amount", .obj [("value", .str "10.00"), ("currency_code", .str "USD")]),
      ("fee_amount", .obj [("value", .str "1.00")]),
      ("net_amount", .obj [("value", .str "999.00")])])]) = .ok r ∧
      r.net_amount = r.amount - r.fee_amount := by
  have hk : (parse_transaction (.obj [("transaction_info", .obj [
      ("transaction_id", .str "T1"),
      ("transaction_amount", .obj [("value", .str "10.00"), ("currency_code", .str "USD")]),
      ("fee_amount", .obj [("value", .str "1.00")]),
      ("net_amount", .obj [("value", .str "999.00")])])])).isOk = true := by decide
  cases h : parse_transaction (.obj [("transaction_info", .obj [
      ("transaction_id", .str "T1"),
      ("transaction_amount", .obj [("value", .str "10.00"), ("currency_code", .str "USD")]),
      ("fee_amount", .obj [("value", .str "1.00")]),
      ("net_amount", .obj [("value", .str "999.00")])])]) with
  | error e => rw [h] at hk; simp [Except.isOk, Except.toBool] at hk
  | ok r => exact ⟨r, rfl, net_amount_recomputed _ r h⟩

/-- Claim C2: the code comment and the spec say _parse_timestamp converts the
instant to UTC before formatting, but strftime formats the parsed wall clock
unchanged and appends a literal UTC suffix: the offset-carrying input
2025-07-15T10:23:00-0700 (UTC instant 17:23:00) is rendered as 10:23:00 UTC.
The Z-suffix acceptance and the None-on-failure behaviour do hold. -/
theorem timestamp_no_utc_conversion :
    parse_timestamp (.str "2025-07-15T10:23:00-0700") = some "2025-07-15 10:23:00 UTC" ∧
    some "2025-07-15 10:23:00 UTC" ≠ some "2025-07-15 17:23:00 UTC" ∧
    parse_timestamp (.str "2025-07-15T10:23:00Z") = some "2025-07-15 10:23:00 UTC" ∧
    parse_timestamp (.str "not-a-timestamp") = none := by
  refine ⟨by decide, by decide, by decide, by decide⟩

theorem except_error_of_not_ok {ε α : Type} (x : Except ε α) (h : x.isOk = false) :
    ∃ e, x = .error e := by
  cases x with
  | error e => exact ⟨e, rfl⟩
  | ok a => simp [Except.isOk, Except.toBool] at h

/-- Claim C3 counterexample: the token exchange makes 4 attempts in total
when every attempt fails, not at most 3: range(max_retries + 1) with
max_retries = 3 runs the wrapped function 4 times. -/
theorem retry_attempts_counterexample :
    get_access_token (fun _ => (.error "token request failed" : Except String String)) =
      (.error "token request failed", [5, 10, 20], 4) ∧ ¬(4 ≤ 3) := by
  exact ⟨by rfl, by decide⟩

theorem retry_go_calls_le {ε α : Type} (backoff : Rat) (f : Nat → Except ε α) :
    ∀ remaining attempt d s, (retry_go backoff f remaining attempt d s).2.2 ≤ attempt + remaining + 1 := by
  intro remaining
  induction remaining with
  | zero =>
    intro attempt d s
    unfold retry_go
    cases f attempt <;> simp
  | succ r ih =>
    intro attempt d s
    unfold retry_go
    cases f attempt with
    | ok a => simp
    | error e =>
      have := ih (attempt + 1) (d * backoff) (s ++ [d])
      simp only []
      omega

/-- Claim C3 amended: the token exchange retry policy makes at most 4 attempts
in total (1 initial + max_retries = 3 retries), sleeping 5, 10 and 20 seconds
between them (5-second initial delay doubling after each failed attempt), and
when every attempt fails the final call outcome, the last exception, is
returned to the caller unchanged. -/
theorem retry_policy_amended (f : Nat → Except String String) :
    (get_access_token f).2.2 ≤ 4 ∧
    ((∀ i, i < 4 → (f i).isOk = false) →
      get_access_token f = (f 3, [5, 10, 20], 4)) := by
  constructor
  · have := retry_go_calls_le 2 f 3 0 5 []
    simpa [get_access_token, retry_on_failure] using this
  · intro h
    obtain ⟨e0, h0⟩ := except_error_of_not_ok _ (h 0 (by omega))
    obtain ⟨e1, h1⟩ := except_error_of_not_ok _ (h 1 (by omega))
    obtain ⟨e2, h2⟩ := except_error_of_not_ok _ (h 2 (by omega))
    obtain ⟨e3, h3⟩ := except_error_of_not_ok _ (h 3 (by omega))
    simp [get_access_token, retry_on_failure, retry_go, h0, h1, h2, h3]
    norm_num

/-- Claim C3 amended witness at a function that always fails. -/
theorem retry_policy_amended_witness :
    (get_access_token (fun _ => (.error "boom" : Except String String))).2.2 ≤ 4 ∧
    get_access_token (fun _ => (.error "boom" : Except String String)) =
      (.error "boom", [5, 10, 20], 4) := by
  refine ⟨(retry_policy_amended _).1, ?_⟩
  have h := (retry_policy_amended (fun _ => (.error "boom" : Except String String))).2
    (by intro i hi; rfl)
  exact h

/-- Claim C4 counterexample: two consecutive 401/403 responses on page 1 do
not abort pagination. The claim predicts the second occurrence returns the
accumulated (empty) list after 2 requests; the code retries page 1 again
(there is no retry counter), issues a 3rd request and returns its records. -/
theorem auth_retry_counterexample :
    fetch_transactions 500 (fun i => if i ≤ 1 then .authFailure else .ok ["T1"] false) 101 =
      some (["T1"], 3) ∧
    some (["T1"], 3) ≠ some (([] : List String), 2) := by
  exact ⟨by decide, by decide⟩

/-- Claim C4 amended: a 401/403 response invalidates the cached token and, on
page 1, always causes the same page to be retried (with a fresh token and no
bound on the number of such retries); on any later page a 401/403 aborts
pagination and returns the transactions accumulated so far. -/
theorem auth_retry_amended (pageSize fuel k : Nat) (env : Nat → PageResp)
    (acc : List String) (h : env k = .authFailure) :
    fetch_go pageSize env (fuel + 1) k 1 acc = fetch_go pageSize env fuel (k + 1) 1 acc ∧
    (∀ page, 2 ≤ page → page ≤ 100 →
      fetch_go pageSize env (fuel + 1) k page acc = some (acc, k + 1)) := by
  constructor
  · simp [fetch_go, h]
  · intro page hlo hhi
    have h1 : ¬ 100 < page := by omega
    have h2 : ¬ page = 1 := by omega
    simp [fetch_go, h, h1, h2]

/-- Claim C4 amended witness: with every response a 401/403, the page-1 state
steps to a retry, and the page-2 state aborts with the accumulated list. -/
theorem auth_retry_amended_witness :
    fetch_go 500 (fun _ => PageResp.authFailure) 1 0 1 [] =
      fetch_go 500 (fun _ => PageResp.authFailure) 0 1 1 [] ∧
    fetch_go 500 (fun _ => PageResp.authFailure) 1 0 2 [] = some ([], 1) := by
  have h := auth_retry_amended 500 0 0 (fun _ => PageResp.authFailure) [] rfl
  exact ⟨h.1, h.2 2 (by omega) (by omega)⟩

/-- Claim C5 counterexample: the fallback fee is not a fixed 2 percent. The
first mock record for 2025-07-30 carries amount 12.50 and fee 0.50 (i * 0.50,
a 4 percent fee), so its net amount is 12.00, not 12.50 - 0.25 = 12.25. -/
theorem fallback_fee_counterexample :
    ((parsed_batch (mock_transactions "2025-07-30")).head?.map
      (fun r => (r.amount, r.fee_amount, r.net_amount))) = some (25/2, 1/2, 12) ∧
    (12 : Rat) ≠ 25/2 - 1/4 ∧
    (1/2 : Rat) ≠ (2/100) * (25/2) := by
  exact ⟨by decide, by decide, by decide⟩

/-- Claim C5 amended: the fallback generator produces for a given start date
exactly 25 records with amount index * 12.50 and fee index * 0.50 (a fixed 4
percent synthetic fee); normalizing the batch for 2025-07-30 yields 25 records
with 0 parse failures, first net_amount 12.50 - 0.50 = 12.00, and a daily
rollup with exactly one key 2025-07-30 of count 25. -/
theorem fallback_batch_amended :
    (mock_transactions "2025-07-30").length = 25 ∧
    parse_failures (mock_transactions "2025-07-30") = 0 ∧
    (parsed_batch (mock_transactions "2025-07-30")).length = 25 ∧
    (parsed_batch (mock_transactions "2025-07-30")).map (fun r => r.amount) =
      (List.range' 1 25).map (fun i => (i : Rat) * (25/2)) ∧
    (parsed_batch (mock_transactions "2025-07-30")).map (fun r => r.fee_amount) =
      (List.range' 1 25).map (fun i => (i : Rat) * (1/2)) ∧
    ((parsed_batch (mock_transactions "2025-07-30")).head?.map (fun r => r.net_amount)) =
      some (25/2 - 1/2) ∧
    (daily_summary (parsed_batch (mock_transactions "2025-07-30"))).map
      (fun p => (p.1, p.2.count)) = [("2025-07-30", 25)] := by
  refine ⟨by decide, by decide, by decide, by decide, by decide, by decide, by decide⟩

theorem fetch_go_all_ok (pageSize : Nat) (recs : Nat → List String) (next : Nat → Bool) :
    ∀ fuel page k acc, 1 ≤ page → page ≤ 101 → 102 ≤ fuel + page →
    ∃ m, fetch_go pageSize (fun i => .ok (recs i) (next i)) fuel k page acc =
        some (acc ++ ((List.range m).map (fun j => recs (k + j))).flatten, k + m) ∧
      page + m ≤ 101 ∧
      (page + m = 101 ∨ (1 ≤ m ∧ (recs (k + m - 1) = [] ∨ next (k + m - 1) = false ∨
        (recs (k + m - 1)).length < pageSize))) ∧
      (page ≤ 100 → 1 ≤ m) := by
  intro fuel
  induction fuel with
  | zero =>
    intro page k acc h1 h101 hf
    omega
  | succ n ih =>
    intro page k acc h1 h101 hf
    by_cases hp : 100 < page
    · refine ⟨0, ?_, by omega, Or.inl (by omega), by omega⟩
      simp [fetch_go, hp]
    · push_neg at hp
      have hone1 : ((List.range 1).map (fun j => recs (k + j))).flatten = recs k := by
        show ([recs (k + 0)]).flatten = recs k
        rw [List.flatten_cons, List.flatten_nil, List.append_nil, Nat.add_zero]
      by_cases he : (recs k).isEmpty
      · refine ⟨1, ?_, by omega, Or.inr ⟨le_refl 1, Or.inl ?_⟩, fun _ => le_refl 1⟩
        · rw [hone1]
          simp [fetch_go, Nat.not_lt.mpr hp, he, List.isEmpty_iff.mp he]
        · simpa using List.isEmpty_iff.mp he
      · by_cases hs : (!next k || decide ((recs k).length < pageSize)) = true
        · refine ⟨1, ?_, by omega, Or.inr ⟨le_refl 1, ?_⟩, fun _ => le_refl 1⟩
          · rw [hone1]
            simp [fetch_go, Nat.not_lt.mpr hp, he, hs]
          · simp only [Nat.add_sub_cancel]
            rcases Bool.or_eq_true_iff.mp hs with hnx | hshort
            · exact Or.inr (Or.inl (by simpa using hnx))
            · exact Or.inr (Or.inr (by simpa using hshort))
        · obtain ⟨m, hres, hle, hstop, hone⟩ :=
            ih (page + 1) (k + 1) (acc ++ recs k) (by omega) (by omega) (by omega)
          have hmapshift : (List.range m).map (fun j => recs (k + 1 + j)) =
              (List.range m).map ((fun j => recs (k + j)) ∘ Nat.succ) := by
            apply List.map_congr_left
            intro j hj
            simp only [Function.comp]
            congr 1
            omega
          have hlist : (acc ++ recs k) ++ ((List.range m).map (fun j => recs (k + 1 + j))).flatten
              = acc ++ ((List.range (m + 1)).map (fun j => recs (k + j))).flatten := by
            rw [List.range_succ_eq_map, List.map_cons, List.flatten_cons, hmapshift,
              List.map_map, List.append_assoc, Nat.add_zero]
          have hnat : k + 1 + m = k + (m + 1) := by omega
          refine ⟨m + 1, ?_, by omega, ?_, fun _ => by omega⟩
          · have hstep : fetch_go pageSize (fun i => .ok (recs i) (next i)) (n + 1) k page acc =
                fetch_go pageSize (fun i => .ok (recs i) (next i)) n (k + 1) (page + 1)
                  (acc ++ recs k) := by
              simp [fetch_go, Nat.not_lt.mpr hp, he, hs]
            rw [hstep, hres, hlist, hnat]
          · rcases hstop with h101' | ⟨hm1, hsc⟩
            · exact Or.inl (by omega)
            · refine Or.inr ⟨by omega, ?_⟩
              have heq : k + 1 + m - 1 = k + (m + 1) - 1 := by omega
              rwa [heq] at hsc

/-- Claim C6: against any source of successful page responses, pagination
terminates within the model fuel and returns the concatenation of all fetched
pages in request order; the number of pages fetched is between 1 and the
100-page ceiling, and unless the ceiling was hit the last fetched page
satisfied a stop condition (zero records, no next link, or short page). -/
theorem pagination_terminates (pageSize : Nat) (recs : Nat → List String) (next : Nat → Bool) :
    ∃ n, 1 ≤ n ∧ n ≤ 100 ∧
      fetch_transactions pageSize (fun i => .ok (recs i) (next i)) 101 =
        some (((List.range n).map recs).flatten, n) ∧
      (n = 100 ∨ recs (n - 1) = [] ∨ next (n - 1) = false ∨
        (recs (n - 1)).length < pageSize) := by
  obtain ⟨m, hres, hle, hstop, hone⟩ :=
    fetch_go_all_ok pageSize recs next 101 1 0 [] (by omega) (by omega) (by omega)
  have hmap : (List.range m).map (fun j => recs (0 + j)) = (List.range m).map recs := by
    apply List.map_congr_left
    intro j hj
    rw [Nat.zero_add]
  refine ⟨m, hone (by omega), by omega, ?_, ?_⟩
  · rw [fetch_transactions, hres, hmap]
    rw [List.nil_append, Nat.zero_add]
  · rcases hstop with h101 | ⟨hm1, hsc⟩
    · exact Or.inl (by omega)
    · rw [Nat.zero_add] at hsc
      exact Or.inr hsc

theorem length_filterMap_isSome {α β : Type} (f : α → Option β) (l : List α)
    (h : ∀ a ∈ l, (f a).isSome = true) : (l.filterMap f).length = l.length := by
  induction l with
  | nil => rfl
  | cons a l ih =>
    have ha := h a (by simp)
    obtain ⟨b, hb⟩ := Option.isSome_iff_exists.mp ha
    rw [List.filterMap_cons, hb]
    simp only [List.length_cons]
    rw [ih (fun x hx => h x (by simp [hx]))]

/-- Claim C7: the data-quality score is the average of the completeness and
uniqueness scores, lies in [0, 100] for every sink content, is exactly 100
when the (nonempty) filtered rows all carry distinct non-null identity keys,
and is 0 with no division performed when the date filter matches no rows. -/
theorem quality_score_bounds (rows : List SinkRow) (filter : String) :
    (validate_data rows filter).total_score =
      ((validate_data rows filter).completeness_score +
        (validate_data rows filter).uniqueness_score) / 2 ∧
    0 ≤ (validate_data rows filter).total_score ∧
    (validate_data rows filter).total_score ≤ 100 ∧
    (dateFiltered rows filter ≠ [] →
      (∀ r ∈ dateFiltered rows filter, (r.transaction_id).isSome = true) →
      ((dateFiltered rows filter).filterMap (fun r => r.transaction_id)).Nodup →
      (validate_data rows filter).total_score = 100) ∧
    (dateFiltered rows filter = [] → (validate_data rows filter).total_score = 0) := by
  have hnle : ((dateFiltered rows filter).filter
      (fun r => r.transaction_id == none)).length ≤ (dateFiltered rows filter).length :=
    List.length_filter_le _ _
  have hule : (((dateFiltered rows filter).filterMap
      (fun r => r.transaction_id)).dedup).length ≤ (dateFiltered rows filter).length := by
    calc (((dateFiltered rows filter).filterMap (fun r => r.transaction_id)).dedup).length
        ≤ ((dateFiltered rows filter).filterMap (fun r => r.transaction_id)).length :=
          (List.dedup_sublist _).length_le
      _ ≤ (dateFiltered rows filter).length := List.length_filterMap_le _ _
  by_cases ht : 0 < (dateFiltered rows filter).length
  · have htQ : (0 : Rat) < ((dateFiltered rows filter).length : Rat) := by
      exact_mod_cast ht
    have hnQ : (((dateFiltered rows filter).filter
        (fun r => r.transaction_id == none)).length : Rat) ≤
        ((dateFiltered rows filter).length : Rat) := by exact_mod_cast hnle
    have hnQ0 : (0 : Rat) ≤ (((dateFiltered rows filter).filter
        (fun r => r.transaction_id == none)).length : Rat) := by positivity
    have huQ : ((((dateFiltered rows filter).filterMap
        (fun r => r.transaction_id)).dedup).length : Rat) ≤
        ((dateFiltered rows filter).length : Rat) := by exact_mod_cast hule
    have huQ0 : (0 : Rat) ≤ ((((dateFiltered rows filter).filterMap
        (fun r => r.transaction_id)).dedup).length : Rat) := by positivity
    have hdivn : (((dateFiltered rows filter).filter
        (fun r => r.transaction_id == none)).length : Rat) /
        ((dateFiltered rows filter).length : Rat) ≤ 1 := by
      rw [div_le_one htQ]
      exact hnQ
    have hdivn0 : (0 : Rat) ≤ (((dateFiltered rows filter).filter
        (fun r => r.transaction_id == none)).length : Rat) /
        ((dateFiltered rows filter).length : Rat) := div_nonneg hnQ0 htQ.le
    have hdivu : ((((dateFiltered rows filter).filterMap
        (fun r => r.transaction_id)).dedup).length : Rat) /
        ((dateFiltered rows filter).length : Rat) ≤ 1 := by
      rw [div_le_one htQ]
      exact huQ
    have hdivu0 : (0 : Rat) ≤ ((((dateFiltered rows filter).filterMap
        (fun r => r.transaction_id)).dedup).length : Rat) /
        ((dateFiltered rows filter).length : Rat) := div_nonneg huQ0 htQ.le
    refine ⟨rfl, ?_, ?_, ?_, ?_⟩
    · simp only [validate_data, if_pos ht]
      linarith
    · simp only [validate_data, if_pos ht]
      linarith
    · intro hne hsome hnodup
      have hn0 : ((dateFiltered rows filter).filter
          (fun r => r.transaction_id == none)).length = 0 := by
        rw [List.length_eq_zero]
        rw [List.filter_eq_nil_iff]
        intro r hr
        have := hsome r hr
        cases hx : r.transaction_id with
        | none => rw [hx] at this; simp at this
        | some v => simp [hx]
      have hu : (((dateFiltered rows filter).filterMap
          (fun r => r.transaction_id)).dedup).length = (dateFiltered rows filter).length := by
        rw [List.dedup_eq_self.mpr hnodup]
        exact length_filterMap_isSome _ _ hsome
      simp only [validate_data, if_pos ht, hn0, hu]
      rw [Nat.cast_zero, zero_div, sub_zero, one_mul, div_self htQ.ne.symm]
      ring
    · intro hempty
      rw [hempty] at ht
      simp at ht
  · have ht0 : (dateFiltered rows filter).length = 0 := by omega
    refine ⟨rfl, ?_, ?_, ?_, ?_⟩
    · simp [validate_data, ht0]
    · simp [validate_data, ht0]
    · intro hne hsome hnodup
      exact absurd (List.length_eq_zero.mp ht0) hne
    · intro hempty
      simp [validate_data, ht0]

/-- Claim C7 witness: a concrete sink with two unique rows on 2025-07-30 scores
100 for that date, and a date filter matching no rows scores 0. -/
theorem quality_score_bounds_witness :
    (validate_data [⟨some "A", some "2025-07-30"⟩, ⟨some "B", some "2025-07-30"⟩,
      ⟨some "A", some "2025-07-29"⟩] "2025-07-30").total_score = 100 ∧
    (validate_data [⟨some "A", some "2025-07-30"⟩, ⟨some "B", some "2025-07-30"⟩,
      ⟨some "A", some "2025-07-29"⟩] "2031-01-01").total_score = 0 := by
  constructor
  · exact (quality_score_bounds [⟨some "A", some "2025-07-30"⟩, ⟨some "B", some "2025-07-30"⟩,
      ⟨some "A", some "2025-07-29"⟩] "2025-07-30").2.2.2.1 (by decide) (by decide) (by decide)
  · exact (quality_score_bounds [⟨some "A", some "2025-07-30"⟩, ⟨some "B", some "2025-07-30"⟩,
      ⟨some "A", some "2025-07-29"⟩] "2031-01-01").2.2.2.2 (by decide)

theorem except_ok_bind {ε α β : Type} (a : α) (f : α → Except ε β) :
    (Except.ok a : Except ε α) >>= f = f a := rfl

theorem except_bind_exists {ε α β : Type} {x : Except ε α} {f : α → Except ε β}
    (a : α) (hx : x = .ok a) (hf : ∃ b, f a = .ok b) : ∃ b, x >>= f = .ok b := by
  obtain ⟨b, hb⟩ := hf
  exact ⟨b, by rw [hx, except_ok_bind, hb]⟩

theorem asObj_eq (j : Json) (h : isObjB j = true) : asObj j = .ok (objFieldsD j) := by
  cases j <;> simp_all [isObjB, asObj, objFieldsD]

theorem truthyObjOk_cases (j : Json) (h : truthyObjOk j = true) :
    j.truthy = false ∨ isObjB j = true := by
  rcases Bool.or_eq_true_iff.mp h with hf | ho
  · exact Or.inl (by simpa using hf)
  · exact Or.inr ho

theorem get_full_name_ok (j : Json) (h : truthyObjOk j = true) :
    ∃ s, get_full_name j = .ok s := by
  rcases truthyObjOk_cases j h with hf | ho
  · exact ⟨"", by rw [get_full_name, if_neg (by simp [hf])]; rfl⟩
  · rw [get_full_name]
    by_cases hj : j.truthy = true
    · rw [if_pos hj, asObj_eq j ho, except_ok_bind]
      exact ⟨_, rfl⟩
    · rw [if_neg hj]
      exact ⟨"", rfl⟩

theorem format_address_ok (j : Json) (h : truthyObjOk j = true) :
    ∃ s, format_address j = .ok s := by
  rcases truthyObjOk_cases j h with hf | ho
  · exact ⟨"", by rw [format_address, if_neg (by simp [hf])]; rfl⟩
  · rw [format_address]
    by_cases hj : j.truthy = true
    · rw [if_pos hj, asObj_eq j ho, except_ok_bind]
      exact ⟨_, rfl⟩
    · rw [if_neg hj]
      exact ⟨"", rfl⟩

theorem fee_value_ok (j : Json) (h : truthyObjOk j = true) :
    ∃ q, fee_value j = .ok q := by
  rcases truthyObjOk_cases j h with hf | ho
  · exact ⟨0, by rw [fee_value, if_neg (by simp [hf])]; rfl⟩
  · rw [fee_value]
    by_cases hj : j.truthy = true
    · rw [if_pos hj, asObj_eq j ho, except_ok_bind]
      exact ⟨_, rfl⟩
    · rw [if_neg hj]
      exact ⟨0, rfl⟩

theorem item_money_ok (j : Json) (h : truthyObjOk j = true) :
    ∃ q, item_money j = .ok q := by
  rcases truthyObjOk_cases j h with hf | ho
  · exact ⟨_, by rw [item_money, if_neg (by simp [hf])]; rfl⟩
  · rw [item_money]
    by_cases hj : j.truthy = true
    · rw [if_pos hj, asObj_eq j ho, except_ok_bind]
      exact ⟨_, rfl⟩
    · rw [if_neg hj]
      exact ⟨_, rfl⟩

theorem extract_store_info_ok (tinfo : List (String × Json))
    (h : truthyObjOk (jget tinfo "store_info" (.obj [])) = true) :
    ∃ v, extract_store_info tinfo = .ok v := by
  rcases truthyObjOk_cases _ h with hf | ho
  · exact ⟨.str "", by rw [extract_store_info, if_neg (by simp [hf])]; rfl⟩
  · rw [extract_store_info]
    by_cases hj : (jget tinfo "store_info" (.obj [])).truthy = true
    · rw [if_pos hj, asObj_eq _ ho, except_ok_bind]
      exact ⟨_, rfl⟩
    · rw [if_neg hj]
      exact ⟨.str "", rfl⟩

theorem extract_payment_method_ok (tinfo : List (String × Json))
    (h : trackingOk (jget tinfo "payment_tracking_info" (.arr [])) = true) :
    ∃ v, extract_payment_method tinfo = .ok v := by
  rw [extract_payment_method]
  cases hv : jget tinfo "payment_tracking_info" (.arr []) with
  | arr l =>
    cases l with
    | nil => exact ⟨.str "", rfl⟩
    | cons x xs =>
      rw [hv, trackingOk] at h
      show ∃ v, (do
        let hfs ← asObj x
        pure (jget hfs "payment_method" (Json.str ""))) = Except.ok v
      rw [asObj_eq x h, except_ok_bind]
      exact ⟨_, rfl⟩
  | null => exact ⟨.str "", rfl⟩
  | bool v => exact ⟨.str "", rfl⟩
  | num v => exact ⟨.str "", rfl⟩
  | str s => exact ⟨.str "", rfl⟩
  | obj o => exact ⟨.str "", rfl⟩

theorem parse_item_ok (j : Json) (h : itemOk j = true) : ∃ it, parse_item j = .ok it := by
  rw [itemOk, Bool.and_eq_true, Bool.and_eq_true] at h
  obtain ⟨⟨hobj, hup⟩, hia⟩ := h
  obtain ⟨q1, h1⟩ := item_money_ok _ hup
  obtain ⟨q2, h2⟩ := item_money_ok _ hia
  rw [parse_item, asObj_eq j hobj, except_ok_bind, h1, except_ok_bind, h2, except_ok_bind]
  exact ⟨_, rfl⟩

theorem parse_items_ok (j : Json) (h : itemsOk j = true) : ∃ l, parse_items j = .ok l := by
  cases j with
  | arr l =>
    rw [itemsOk] at h
    rw [parse_items]
    induction l with
    | nil => exact ⟨[], rfl⟩
    | cons x xs ih =>
      rw [List.all_cons, Bool.and_eq_true] at h
      obtain ⟨hx, hxs⟩ := h
      obtain ⟨it, hit⟩ := parse_item_ok x hx
      obtain ⟨its, hits⟩ := ih hxs
      rw [List.mapM_cons, hit, except_ok_bind, hits, except_ok_bind]
      exact ⟨_, rfl⟩
  | obj o =>
    rw [itemsOk] at h
    rw [parse_items, if_pos h]
    exact ⟨[], rfl⟩
  | str s =>
    rw [itemsOk] at h
    rw [parse_items, if_pos h]
    exact ⟨[], rfl⟩
  | null => simp [itemsOk] at h
  | bool v => simp [itemsOk] at h
  | num v => simp [itemsOk] at h

theorem jLen_ok_of_itemsOk (j : Json) (h : itemsOk j = true) : ∃ n, jLen j = .ok n := by
  cases j <;> simp_all [itemsOk, jLen]

theorem cartOk_cases (cart : Json) (h : cartOk cart = true) :
    cart.truthy = false ∨
    (isObjB cart = true ∧ itemsOk (jget (objFieldsD cart) "item_details" (.arr [])) = true) := by
  rcases Bool.or_eq_true_iff.mp h with hf | ho
  · exact Or.inl (by simpa using hf)
  · exact Or.inr (by
      rw [Bool.and_eq_true] at ho
      exact ho)

theorem cart_item_count_ok (cart : Json) (h : cartOk cart = true) :
    ∃ n, cart_item_count cart = .ok n := by
  rcases cartOk_cases cart h with hf | ⟨ho, hi⟩
  · exact ⟨0, by rw [cart_item_count, if_neg (by simp [hf])]; rfl⟩
  · rw [cart_item_count]
    by_cases hj : cart.truthy = true
    · rw [if_pos hj, asObj_eq cart ho, except_ok_bind]
      exact jLen_ok_of_itemsOk _ hi
    · rw [if_neg hj]
      exact ⟨0, rfl⟩

theorem cart_items_ok (cart : Json) (h : cartOk cart = true) :
    ∃ l, cart_items cart = .ok l := by
  rcases cartOk_cases cart h with hf | ⟨ho, hi⟩
  · exact ⟨[], by rw [cart_items, if_neg (by simp [hf])]; rfl⟩
  · rw [cart_items]
    by_cases hj : cart.truthy = true
    · rw [if_pos hj, asObj_eq cart ho, except_ok_bind]
      exact parse_items_ok _ hi
    · rw [if_neg hj]
      exact ⟨[], rfl⟩

theorem currency_errors_ok (c : Json) (h : currencyLenOk c = true) :
    ∃ es, currency_errors c = .ok es := by
  rcases Bool.or_eq_true_iff.mp h with hf | hl
  · exact ⟨[], by rw [currency_errors, if_neg (by simpa using hf)]; rfl⟩
  · rw [currency_errors]
    by_cases hj : c.truthy = true
    · rw [if_pos hj]
      have : ∃ n, jLen c = .ok n := by
        cases c <;> simp_all [lenOk, jLen]
      obtain ⟨n, hn⟩ := this
      rw [hn, except_ok_bind]
      exact ⟨_, rfl⟩
    · rw [if_neg hj]
      exact ⟨[], rfl⟩

theorem validate_transaction_data_ok (t : Parsed) (h : currencyLenOk t.currency_code = true) :
    ∃ p, validate_transaction_data t = .ok p := by
  obtain ⟨es, he⟩ := currency_errors_ok _ h
  rw [validate_transaction_data, he, except_ok_bind]
  exact ⟨_, rfl⟩

theorem except_pure_bind {ε α β : Type} (a : α) (f : α → Except ε β) :
    (pure a : Except ε α) >>= f = f a := rfl

theorem validate_transaction_data_ok2 (t : Parsed) (cv : Json) (hc : t.currency_code = cv)
    (h : currencyLenOk cv = true) : ∃ p, validate_transaction_data t = .ok p :=
  validate_transaction_data_ok t (hc ▸ h)

theorem parse_ok_of_wellShaped (t : Json) (h : wellShaped t = true) :
    ∃ r, parse_transaction t = .ok r := by
  rw [wellShaped] at h
  simp only [Bool.and_eq_true] at h
  obtain ⟨⟨⟨⟨⟨⟨⟨⟨⟨⟨⟨⟨hobj, hti⟩, hpy⟩, hsh⟩, ham⟩, hcur⟩, hfee⟩, hpn⟩, htr⟩, hst⟩, hsn⟩, hsa⟩, hca⟩ := h
  obtain ⟨fv, hfv⟩ := fee_value_ok _ hfee
  obtain ⟨pn, hpn'⟩ := get_full_name_ok _ hpn
  obtain ⟨pmv, hpmv⟩ := extract_payment_method_ok
    (objFieldsD (jget (objFieldsD t) "transaction_info" (.obj []))) htr
  obtain ⟨siv, hsiv⟩ := extract_store_info_ok
    (objFieldsD (jget (objFieldsD t) "transaction_info" (.obj []))) hst
  obtain ⟨snv, hsnv⟩ := get_full_name_ok _ hsn
  obtain ⟨sav, hsav⟩ := format_address_ok _ hsa
  obtain ⟨icv, hicv⟩ := cart_item_count_ok _ hca
  obtain ⟨itv, hitv⟩ := cart_items_ok _ hca
  obtain ⟨es, he⟩ := currency_errors_ok _ hcur
  rw [parse_transaction]
  refine except_bind_exists _ (asObj_eq t hobj) ?_
  refine except_bind_exists _ (asObj_eq _ hti) ?_
  refine except_bind_exists _ (asObj_eq _ hpy) ?_
  refine except_bind_exists _ (asObj_eq _ hsh) ?_
  refine except_bind_exists _ (asObj_eq _ ham) ?_
  refine except_bind_exists _ hfv ?_
  refine except_bind_exists _ hpn' ?_
  refine except_bind_exists _ hpmv ?_
  refine except_bind_exists _ hsiv ?_
  refine except_bind_exists _ hsnv ?_
  refine except_bind_exists _ hsav ?_
  refine except_bind_exists _ hicv ?_
  refine except_bind_exists _ hitv ?_
  simp only [validate_transaction_data, he, except_ok_bind, except_pure_bind]
  exact ⟨_, rfl⟩

theorem payer_absent_defaults (fs : List (String × Json)) (r : Parsed)
    (hp : fs.lookup "payer_info" = none)
    (h : parse_transaction (.obj fs) = .ok r) :
    r.payer_email = .str "" ∧ r.payer_name = "" := by
  unfold parse_transaction at h
  simp only [except_bind_ok, except_pure_ok] at h
  obtain ⟨fs', hfs', tinfo, htinfo, payer, hpayer, ship, hship, amountInfo, hai, fv, hfv,
    pn, hpn, pm, hpm, si, hsi, sn, hsn, sa, hsa, ic, hic, its, hits, vp, hv, hr⟩ := h
  have hfs'' : fs' = fs := by
    have : (Except.ok fs : Except Unit (List (String × Json))) = .ok fs' := hfs'
    exact (Except.ok.injEq _ _).mp this.symm
  subst hfs''
  have hjp : jget fs' "payer_info" (.obj []) = .obj [] := by
    rw [jget, hp]
    rfl
  rw [hjp] at hpayer
  have hp0 : payer = [] := by
    have : (Except.ok ([] : List (String × Json)) : Except Unit _) = .ok payer := hpayer
    exact ((Except.ok.injEq _ _).mp this).symm
  subst hp0
  have hpn0 : pn = "" := by
    have : get_full_name (jget ([] : List (String × Json)) "payer_name" (.obj [])) =
        Except.ok "" := rfl
    rw [this] at hpn
    exact ((Except.ok.injEq _ _).mp hpn).symm
  subst hpn0
  subst hr
  exact ⟨rfl, rfl⟩

/-- Claim C8: parse_transaction never fails on missing or malformed numeric or
date sub-fields: every structurally well-shaped record (wellShaped constrains
only the dict shape of the nested groups, leaving every leaf value free)
parses to a record, a ParseFailure arises only for records outside that
structural class (the code paths that raise), and a record missing the
payer_info group entirely that parses emits payer_email and payer_name as
empty strings. -/
theorem normalizer_safe_coercion (t : Json) :
    (wellShaped t = true → ∃ r, parse_transaction t = .ok r) ∧
    ((parse_transaction t).isOk = false → wellShaped t = false) ∧
    (∀ fs r, t = .obj fs → fs.lookup "payer_info" = none →
      parse_transaction t = .ok r → r.payer_email = .str "" ∧ r.payer_name = "") := by
  refine ⟨parse_ok_of_wellShaped t, ?_, ?_⟩
  · intro hnot
    by_contra hws
    rw [Bool.not_eq_false] at hws
    obtain ⟨r, hr⟩ := parse_ok_of_wellShaped t hws
    rw [hr] at hnot
    simp [Except.isOk, Except.toBool] at hnot
  · intro fs r ht hp hok
    subst ht
    exact payer_absent_defaults fs r hp hok

/-- Claim C8 witness: a concrete record with no payer_info group is
well-shaped, parses, and carries empty payer fields; a record whose
transaction_info group is a bare string is rejected and is exactly not
well-shaped. -/
theorem normalizer_safe_coercion_witness :
    wellShaped (.obj [("transaction_info", .obj [("transaction_id", .str "T1"),
      ("transaction_amount", .obj [("value", .str "7.50")])])]) = true ∧
    (∃ r, parse_transaction (.obj [("transaction_info", .obj [("transaction_id", .str "T1"),
      ("transaction_amount", .obj [("value", .str "7.50")])])]) = .ok r ∧
      r.payer_email = .str "" ∧ r.payer_name = "") ∧
    (parse_transaction (.obj [("transaction_info", .str "x")])).isOk = false ∧
    wellShaped (.obj [("transaction_info", .str "x")]) = false := by
  have h1 : wellShaped (.obj [("transaction_info", .obj [("transaction_id", .str "T1"),
      ("transaction_amount", .obj [("value", .str "7.50")])])]) = true := by decide
  obtain ⟨r, hr⟩ := (normalizer_safe_coercion _).1 h1
  have h3 : (parse_transaction (.obj [("transaction_info", .str "x")])).isOk = false := by
    decide
  refine ⟨h1, ⟨r, hr, (normalizer_safe_coercion _).2.2
    [("transaction_info", .obj [("transaction_id", .str "T1"),
      ("transaction_amount", .obj [("value", .str "7.50")])])] r rfl rfl hr⟩, h3,
    (normalizer_safe_coercion _).2.1 h3⟩

/-- Claim C9 counterexample: for an empty normalized batch (in particular when
both the normalized count and the parse-failure count are zero),
generate_statistics returns the early error dict, so no success rate of 0 is
produced; and for a nonempty batch the stored rate is the ratio scaled by 100
(a percentage), not the bare ratio the claim states. -/
theorem stats_empty_counterexample :
    generate_statistics [] 0 = .errorDict "No transactions to analyze" ∧
    StatsResult.errorDict "No transactions to analyze" ≠ StatsResult.stats 0 [] ∧
    generate_statistics [⟨.str "T1", .str "", .str "S", .str "", .str "", .str "",
        5, .str "USD", 1, 4, none, none, .str "", "", .str "", .str "", .str "",
        .str "", .str "", .str "", "", "", 0, []⟩] 1 =
      .stats 50 (daily_summary [⟨.str "T1", .str "", .str "S", .str "", .str "", .str "",
        5, .str "USD", 1, 4, none, none, .str "", "", .str "", .str "", .str "",
        .str "", .str "", .str "", "", "", 0, []⟩]) ∧
    (50 : Rat) ≠ 1 / (1 + 1) := by
  refine ⟨rfl, fun h => StatsResult.noConfusion h, by rfl, by decide⟩

/-- Claim C9 amended: when the normalized batch is empty (whatever the
parse-failure count) generate_statistics returns the error dict, performing no
division; when it is nonempty the success rate is
normalized / (normalized + failures) scaled to a percentage. -/
theorem success_rate_amended (parsed : List Parsed) (perrs : Nat) :
    (parsed = [] → generate_statistics parsed perrs =
      .errorDict "No transactions to analyze") ∧
    (parsed ≠ [] → generate_statistics parsed perrs =
      .stats ((parsed.length : Rat) / ((parsed.length : Rat) + (perrs : Rat)) * 100)
        (daily_summary parsed)) := by
  constructor
  · intro h
    subst h
    rfl
  · intro h
    rw [generate_statistics, if_neg (by simpa [List.isEmpty_iff] using h)]

/-- Claim C9 amended witness: the empty batch gives the error dict; a concrete
singleton batch with two recorded parse failures gives rate 1 / (1 + 2) * 100. -/
theorem success_rate_amended_witness :
    generate_statistics [] 0 = .errorDict "No transactions to analyze" ∧
    generate_statistics [⟨.str "T1", .str "", .str "S", .str "", .str "", .str "",
        5, .str "USD", 1, 4, some "2025-07-30 10:00:00 UTC", none, .str "", "",
        .str "", .str "", .str "", .str "", .str "", .str "", "", "", 0, []⟩] 2 =
      .stats (((1 : Rat) / (1 + 2)) * 100)
        (daily_summary [⟨.str "T1", .str "", .str "S", .str "", .str "", .str "",
          5, .str "USD", 1, 4, some "2025-07-30 10:00:00 UTC", none, .str "", "",
          .str "", .str "", .str "", .str "", .str "", .str "", "", "", 0, []⟩]) := by
  constructor
  · exact (success_rate_amended [] 0).1 rfl
  · have h := (success_rate_amended [⟨.str "T1", .str "", .str "S", .str "", .str "",
      .str "", 5, .str "USD", 1, 4, some "2025-07-30 10:00:00 UTC", none, .str "", "",
      .str "", .str "", .str "", .str "", .str "", .str "", "", "", 0, []⟩] 2).2
      (List.cons_ne_nil _ [])
    simpa using h

/-- Claim C10 counterexample: parse_transaction can emit an empty
currency_code. An upstream record supplying currency_code as the empty string
parses successfully and the emitted currency_code is that empty (falsy)
string, not a non-empty 3-character code. -/
theorem currency_empty_counterexample :
    (parse_transaction (.obj [("transaction_info", .obj [("transaction_id", .str "T1"),
      ("transaction_amount", .obj [("currency_code", .str ""),
        ("value", .str "5.00")])])])).map (fun r => r.currency_code) = .ok (.str "") ∧
    Json.truthy (.str "") = false := by
  exact ⟨rfl, rfl⟩

theorem objFieldsD_obj (fs : List (String × Json)) : objFieldsD (.obj fs) = fs := rfl

/-- Claim C10 amended: when the raw record carries no currency_code on the code
lookup path (transaction_amount group missing or lacking the key), the emitted
record has currency_code USD, which is truthy and passes the 3-character
business-rule check (currency_errors is empty); the invariant does not extend
to records whose upstream currency_code is present but empty. -/
theorem currency_default_amended (t : Json) (r : Parsed)
    (ha : currencyAbsent t = true) (h : parse_transaction t = .ok r) :
    r.currency_code = .str "USD" ∧ currency_errors r.currency_code = .ok [] := by
  cases t with
  | null => simp [currencyAbsent, isObjB] at ha
  | bool v => simp [currencyAbsent, isObjB] at ha
  | num v => simp [currencyAbsent, isObjB] at ha
  | str s => simp [currencyAbsent, isObjB] at ha
  | arr l => simp [currencyAbsent, isObjB] at ha
  | obj fs =>
    rw [currencyAbsent] at ha
    simp only [Bool.and_eq_true, objFieldsD_obj] at ha
    obtain ⟨⟨⟨hto, hti⟩, ham⟩, hnone⟩ := ha
    unfold parse_transaction at h
    simp only [except_bind_ok, except_pure_ok] at h
    obtain ⟨fs', hfs', tinfo, htinfo, payer, hpayer, ship, hship, amountInfo, hai, fv, hfv,
      pn, hpn, pm, hpm, si, hsi, sn, hsn, sa, hsa, ic, hic, its, hits, vp, hv, hr⟩ := h
    have hfs'' : fs' = fs := by
      have hx : (Except.ok fs : Except Unit (List (String × Json))) = .ok fs' := hfs'
      exact (Except.ok.injEq _ _).mp hx.symm
    subst hfs''
    have h1 : asObj (jget fs' "transaction_info" (.obj [])) =
        .ok (objFieldsD (jget fs' "transaction_info" (.obj []))) := asObj_eq _ hti
    have htinfo' : tinfo = objFieldsD (jget fs' "transaction_info" (.obj [])) := by
      rw [h1] at htinfo
      exact ((Except.ok.injEq _ _).mp htinfo).symm
    subst htinfo'
    have h2 : asObj (jget (objFieldsD (jget fs' "transaction_info" (.obj [])))
        "transaction_amount" (.obj [])) =
        .ok (objFieldsD (jget (objFieldsD (jget fs' "transaction_info" (.obj [])))
          "transaction_amount" (.obj []))) := asObj_eq _ ham
    have hai' : amountInfo = objFieldsD (jget (objFieldsD (jget fs' "transaction_info"
        (.obj []))) "transaction_amount" (.obj [])) := by
      rw [h2] at hai
      exact ((Except.ok.injEq _ _).mp hai).symm
    subst hai'
    have hcur : jget (objFieldsD (jget (objFieldsD (jget fs' "transaction_info" (.obj [])))
        "transaction_amount" (.obj []))) "currency_code" (.str "USD") = .str "USD" := by
      rw [jget, Option.isNone_iff_eq_none.mp hnone]
      rfl
    subst hr
    refine ⟨hcur, ?_⟩
    show currency_errors (jget (objFieldsD (jget (objFieldsD (jget fs' "transaction_info"
      (.obj []))) "transaction_amount" (.obj []))) "currency_code" (.str "USD")) = .ok []
    rw [hcur]
    rfl

/-- Claim C10 amended witness: the empty raw record has no currency_code on
the lookup path, parses, and is emitted with the USD default passing the
currency rule. -/
theorem currency_default_amended_witness :
    currencyAbsent (.obj []) = true ∧
    ∃ r, parse_transaction (.obj []) = .ok r ∧
      r.currency_code = .str "USD" ∧ currency_errors r.currency_code = .ok [] := by
  have h1 : currencyAbsent (.obj []) = true := by decide
  have hk : (parse_transaction (.obj [])).isOk = true := by decide
  refine ⟨h1, ?_⟩
  cases h : parse_transaction (.obj []) with
  | error e =>
    rw [h] at hk
    simp [Except.isOk, Except.toBool] at hk
  | ok r => exact ⟨r, rfl, currency_default_amended _ r h1 h⟩
